import Mathlib

/-!
Verification of the gRPC server instrumentation probe
(internal/pkg/instrumentation/bpf/google.golang.org/grpc/server/probe.go).

The development shallowly embeds the probe definition: the semantic-version
model and constraint checking used by the attachment points (the
Masterminds/semver library as used by the probe), the two constant resolvers
framePosConst and serverAddrConst, the Uprobe declarations of New, and the
event-to-span processor processFn.  Package-level mutable state
(the serverAddr feature flag) is embedded by explicit state passing.
-/

deriving instance DecidableEq for Except

/-! ## Semantic versions (Masterminds/semver as used by the probe) -/

/-- Dot-separated prerelease identifier: numeric identifiers compare
numerically, alphanumeric identifiers compare by ASCII, and numeric
identifiers sort before alphanumeric ones. -/
inductive PreId where
  | num (n : Nat)
  | str (s : String)
deriving DecidableEq, Repr

/-- Semantic version with major, minor, patch and a (possibly empty)
prerelease identifier list.  Build metadata is ignored for comparison and is
not modelled.  The Go code builds versions with semver.New(major, minor,
patch, "", ""), giving an empty prerelease. -/
structure Version where
  major : Nat
  minor : Nat
  patch : Nat
  pre : List PreId
deriving DecidableEq, Repr

/-- Mirrors semver.New(major, minor, patch, "", ""): a release version with no
prerelease identifiers. -/
def semverNew (major minor patch : Nat) : Version :=
  { major := major, minor := minor, patch := patch, pre := [] }

/-- Comparison of single prerelease identifiers per the semver specification. -/
def comparePreId : PreId → PreId → Ordering
  | .num a, .num b => compare a b
  | .num _, .str _ => .lt
  | .str _, .num _ => .gt
  | .str a, .str b => compare a b

/-- Lexicographic comparison of prerelease identifier lists; a longer list
with an equal shared part has higher precedence. -/
def comparePreList : List PreId → List PreId → Ordering
  | [], [] => .eq
  | [], _ :: _ => .lt
  | _ :: _, [] => .gt
  | a :: as, b :: bs =>
    match comparePreId a b with
    | .eq => comparePreList as bs
    | o => o

/-- Total semver comparison: major, then minor, then patch; a release sorts
above any prerelease of the same numeric triple; otherwise prereleases
compare lexicographically. -/
def compareVersion (v w : Version) : Ordering :=
  match compare v.major w.major with
  | .eq =>
    match compare v.minor w.minor with
    | .eq =>
      match compare v.patch w.patch with
      | .eq =>
        match v.pre, w.pre with
        | [], [] => .eq
        | [], _ :: _ => .gt
        | _ :: _, [] => .lt
        | pa, pb => comparePreList pa pb
      | o => o
    | o => o
  | o => o

/-- Mirrors semver.Version.GreaterThanEqual: Compare is not less-than. -/
def Version.greaterThanEqual (v w : Version) : Bool :=
  compareVersion v w != Ordering.lt

/-! ## Constraint engine (parsed forms of the range strings in probe.go) -/

/-- Comparison operator of a parsed simple constraint.  The probe only uses
the operators less-than, greater-than and greater-or-equal. -/
inductive ConstraintOp where
  | lt
  | gt
  | ge
deriving DecidableEq, Repr

/-- Parsed simple constraint: an operator and a reference version. -/
structure SimpleConstraint where
  op : ConstraintOp
  ref : Version
deriving DecidableEq, Repr

/-- Mirrors the Masterminds check of one simple constraint: a version with a
prerelease never satisfies a constraint whose reference version has no
prerelease; otherwise the comparison decides. -/
def checkConstraint (c : SimpleConstraint) (v : Version) : Bool :=
  if v.pre != [] && c.ref.pre == [] then
    false
  else
    match c.op with
    | .lt => compareVersion v c.ref == Ordering.lt
    | .gt => compareVersion v c.ref == Ordering.gt
    | .ge => compareVersion v c.ref != Ordering.lt

/-- Mirrors semver.Constraints.Check for a comma-separated (conjunctive)
constraint list. -/
def checkConstraints (cs : List SimpleConstraint) (v : Version) : Bool :=
  cs.all fun c => checkConstraint c v

/-! ## Probe declaration data (probe.go, func New) -/

/-- Mirrors the constant pkg in probe.go: the package being instrumented. -/
def pkg : String := "google.golang.org/grpc"

/-- Mirrors writeStatusMinVersion: the minimum version of grpc that supports
status parsing. -/
def writeStatusMinVersion : Version := semverNew 1 40 0

/-- Mirrors serverStreamVersion: the version at which both the writeStatus and
handleStream methods changed to accept a ServerStream instead of a Stream. -/
def serverStreamVersion : Version := semverNew 1 69 0

/-- Mirrors paramChangeVer: before v1.60.0 the frame parameter of
operateHeaders came first; from v1.60.0 a context was prepended. -/
def paramChangeVer : Version := semverNew 1 60 0

/-- Mirrors serverAddrMinVersion: the minimum version from which the local
server address is captured. -/
def serverAddrMinVersion : Version := semverNew 1 60 0

/-- Mirrors probe.FailureMode for package constraints. -/
inductive FailureMode where
  | ignore
  | fail
deriving DecidableEq, Repr

/-- Mirrors probe.PackageConstraints: a package name, a conjunctive parsed
constraint list and a failure mode. -/
structure PackageConstraints where
  package : String
  constraints : List SimpleConstraint
  failureMode : FailureMode
deriving DecidableEq, Repr

/-- Mirrors probe.Uprobe: a symbol, an entry probe, an optional return probe
and the package constraints gating attachment. -/
structure Uprobe where
  sym : String
  entryProbe : String
  returnProbe : Option String
  packageConstraints : List PackageConstraints
deriving DecidableEq, Repr

/-- First handleStream attachment point of New: entry handler
uprobe_server_handleStream, constrained to grpc versions before
serverStreamVersion. -/
def handleStreamUprobe : Uprobe :=
  { sym := "google.golang.org/grpc.(*Server).handleStream"
    entryProbe := "uprobe_server_handleStream"
    returnProbe := some "uprobe_server_handleStream_Returns"
    packageConstraints :=
      [{ package := pkg
         constraints := [{ op := .lt, ref := serverStreamVersion }]
         failureMode := .ignore }] }

/-- Second handleStream attachment point of New: entry handler
uprobe_server_handleStream2, constrained to grpc versions at or above
serverStreamVersion. -/
def handleStream2Uprobe : Uprobe :=
  { sym := "google.golang.org/grpc.(*Server).handleStream"
    entryProbe := "uprobe_server_handleStream2"
    returnProbe := some "uprobe_server_handleStream2_Returns"
    packageConstraints :=
      [{ package := pkg
         constraints := [{ op := .ge, ref := serverStreamVersion }]
         failureMode := .ignore }] }

/-- Unconstrained operateHeaders attachment point of New. -/
def operateHeadersUprobe : Uprobe :=
  { sym := "google.golang.org/grpc/internal/transport.(*http2Server).operateHeaders"
    entryProbe := "uprobe_http2Server_operateHeader"
    returnProbe := none
    packageConstraints := [] }

/-- WriteStatus attachment point of New (exported method, capital W):
constrained to grpc versions strictly above writeStatusMinVersion and
strictly below serverStreamVersion. -/
def writeStatusUprobe : Uprobe :=
  { sym := "google.golang.org/grpc/internal/transport.(*http2Server).WriteStatus"
    entryProbe := "uprobe_http2Server_WriteStatus"
    returnProbe := none
    packageConstraints :=
      [{ package := pkg
         constraints :=
          [{ op := .gt, ref := writeStatusMinVersion },
           { op := .lt, ref := serverStreamVersion }]
         failureMode := .ignore }] }

/-- writeStatus attachment point of New (unexported method, lowercase w):
constrained to grpc versions at or above serverStreamVersion. -/
def writeStatus2Uprobe : Uprobe :=
  { sym := "google.golang.org/grpc/internal/transport.(*http2Server).writeStatus"
    entryProbe := "uprobe_http2Server_WriteStatus2"
    returnProbe := none
    packageConstraints :=
      [{ package := pkg
         constraints := [{ op := .ge, ref := serverStreamVersion }]
         failureMode := .ignore }] }

/-- Mirrors the Uprobes list of New in declaration order. -/
def Uprobes : List Uprobe :=
  [handleStreamUprobe, handleStream2Uprobe, operateHeadersUprobe,
   writeStatusUprobe, writeStatus2Uprobe]

/-- Lookup in a module-version map modelled as an association list, mirroring
the map access info.Modules. -/
def lookupModule : List (String × Version) → String → Option Version
  | [], _ => none
  | (k, ver) :: rest, key => if k == key then some ver else lookupModule rest key

/-- An attachment point is satisfied for a detected module-version map when
every one of its package constraints finds its package in the map and the
detected version passes the parsed constraint list; an absent package leaves
the constraint unmet. -/
def uprobeSatisfied (u : Uprobe) (modules : List (String × Version)) : Bool :=
  u.packageConstraints.all fun pc =>
    match lookupModule modules pc.package with
    | some ver => checkConstraints pc.constraints ver
    | none => false

/-! ## Constant resolvers (framePosConst, serverAddrConst) -/

/-- Mirrors process.Info restricted to what the two resolvers read: the
module-version map, as an association list. -/
structure ProcessInfo where
  Modules : List (String × Version)
deriving DecidableEq, Repr

/-- Mirrors inject.WithKeyValue for the boolean constants the two resolvers
inject. -/
inductive InjectOption where
  | keyValue (key : String) (value : Bool)
deriving DecidableEq, Repr

/-- Mirrors framePosConst.InjectOption: looks up the grpc module version and
injects is_new_frame_pos, true exactly when the detected version is at or
above paramChangeVer; a missing module entry is an error. -/
def framePosConstInjectOption (info : ProcessInfo) : Except String InjectOption :=
  match lookupModule info.Modules pkg with
  | none => .error ("unknown module version: " ++ pkg)
  | some ver =>
    .ok (.keyValue "is_new_frame_pos" (ver.greaterThanEqual paramChangeVer))

/-- Mirrors serverAddrConst.InjectOption together with the package-level
variable serverAddr it reads and writes.  The Go code declares
var serverAddr = false at package level, sets it to true when the detected
version is at or above serverAddrMinVersion, never resets it to false, and
injects server_addr_supported with the current value of the variable.  The
mutable variable is embedded by explicit state passing: the argument
serverAddr is the value of the variable before the call and the second
component of the result is its value after the call. -/
def serverAddrConstInjectOption (serverAddr : Bool) (info : ProcessInfo) :
    Except String (InjectOption × Bool) :=
  match lookupModule info.Modules pkg with
  | none => .error ("unknown module version: " ++ pkg)
  | some ver =>
    let serverAddr :=
      if ver.greaterThanEqual serverAddrMinVersion then true else serverAddr
    .ok (.keyValue "server_addr_supported" serverAddr, serverAddr)

/-! ## Event model and processor (processFn) -/

/-- Trace and span identifiers of context.BaseSpanProperties, as raw byte
lists (16 bytes for a trace identifier, 8 for a span identifier). -/
structure EBPFSpanContext where
  TraceID : List Nat
  SpanID : List Nat
deriving DecidableEq, Repr

/-- Mirrors the NetAddr struct of probe.go: 16 raw IP bytes and a port. -/
structure NetAddr where
  IP : List Nat
  Port : Int
deriving DecidableEq, Repr

/-- Mirrors the event struct of probe.go: the base span properties
(timestamps and span contexts), the fixed 100-byte Method buffer, the status
code, the local address and the has-status flag.  Byte buffers are byte
lists; the Method field of a well-formed event has length 100. -/
structure event where
  StartTime : Nat
  EndTime : Nat
  SpanContext : EBPFSpanContext
  ParentSpanContext : EBPFSpanContext
  Method : List Nat
  StatusCode : Int
  LocalAddr : NetAddr
  HasStatus : Nat
deriving DecidableEq, Repr

/-- Mirrors unix.ByteSliceToString: the bytes of the slice up to but not
including the first null byte, or the whole slice when it has no null
byte. -/
def byteSliceToString (bs : List Nat) : List Nat :=
  bs.takeWhile fun b => b != 0

/-- Mirrors trace.SpanID.IsValid: a span identifier is valid exactly when it
differs from the all-zero identifier. -/
def spanIDIsValid (sid : List Nat) : Bool :=
  sid != List.replicate 8 0

/-- Mirrors the grpc codes package values used by processFn. -/
def codeUnknown : Int := 2

/-- Mirrors codes.DeadlineExceeded. -/
def codeDeadlineExceeded : Int := 4

/-- Mirrors codes.Unimplemented. -/
def codeUnimplemented : Int := 12

/-- Mirrors codes.Internal. -/
def codeInternal : Int := 13

/-- Mirrors codes.Unavailable. -/
def codeUnavailable : Int := 14

/-- Mirrors codes.DataLoss. -/
def codeDataLoss : Int := 15

/-- Attribute values appearing in processFn.  String values are Go strings as
byte lists; the server.address value is the formatted form
net.IP(ip).String() of the 16 raw address bytes, kept here as the raw bytes
since no claim depends on the textual IP formatting. -/
inductive AttrValue where
  | str (s : List Nat)
  | int (n : Int)
  | ipStr (ip : List Nat)
deriving DecidableEq, Repr

/-- A key-value attribute as built by processFn. -/
structure Attr where
  key : String
  value : AttrValue
deriving DecidableEq, Repr

/-- Span status code of the trace data model (ptrace.StatusCode); a freshly
created span has status unset. -/
inductive SpanStatusCode where
  | unset
  | error
  | ok
deriving DecidableEq, Repr

/-- Span kind of the trace data model; processFn always produces server
spans. -/
inductive SpanKind where
  | unspecified
  | server
deriving DecidableEq, Repr

/-- The span record processFn fills in: name, kind, converted timestamps,
identifiers, sampled flags, optional parent span identifier, status and the
attribute key-value list handed to pdataconv.Attributes. -/
structure Span where
  name : List Nat
  kind : SpanKind
  startTimestamp : Nat
  endTimestamp : Nat
  traceID : List Nat
  spanID : List Nat
  flags : Nat
  parentSpanID : Option (List Nat)
  status : SpanStatusCode
  attributes : List Attr
deriving DecidableEq, Repr

instance : Inhabited Span :=
  ⟨{ name := [], kind := .unspecified, startTimestamp := 0, endTimestamp := 0,
     traceID := [], spanID := [], flags := 0, parentSpanID := none,
     status := .unset, attributes := [] }⟩

/-- Modelled from the spec: kernel.BootOffsetToTimestamp (package kernel, not
under src) converts a boot-relative time into a wall-clock timestamp using
one fixed boot-time offset basis for both timestamps of an event. -/
def bootOffsetToTimestamp (bootOffset t : Nat) : Nat :=
  bootOffset + t

/-- The Go string literal grpc as bytes, the rpc.system attribute value. -/
def grpcName : List Nat := [103, 114, 112, 99]

/-- Mirrors processor.processFn: decodes the method name, builds the single
span with kind server, converted timestamps, trace and span identifiers and
the sampled flag, attaches the parent span identifier only when valid, maps
the status code to an error span status for the closed error-class code set
when the has-status flag is set, and appends the server address and port
attributes only when the process-wide serverAddr flag is true.  The flag
(package-level variable in Go) and the boot offset of the kernel clock
conversion are explicit parameters; the debug log call has no effect on the
result and is not modelled. -/
def processFn (bootOffset : Nat) (serverAddr : Bool) (e : event) : List Span :=
  let method := byteSliceToString e.Method
  let status :=
    if e.HasStatus != 0 then
      if e.StatusCode == codeUnknown || e.StatusCode == codeDeadlineExceeded ||
         e.StatusCode == codeUnimplemented || e.StatusCode == codeInternal ||
         e.StatusCode == codeUnavailable || e.StatusCode == codeDataLoss then
        SpanStatusCode.error
      else
        SpanStatusCode.unset
    else
      SpanStatusCode.unset
  let attrs :=
    [{ key := "rpc.system", value := .str grpcName },
     { key := "rpc.service", value := .str method },
     { key := "rpc.grpc.status_code", value := .int e.StatusCode }]
  let attrs :=
    if e.HasStatus != 0 then
      attrs ++ [{ key := "rpc.grpc.status_code", value := AttrValue.int e.StatusCode }]
    else
      attrs
  let attrs :=
    if serverAddr then
      attrs ++
        [{ key := "server.address", value := AttrValue.ipStr e.LocalAddr.IP },
         { key := "server.port", value := AttrValue.int e.LocalAddr.Port }]
    else
      attrs
  [{ name := method
     kind := .server
     startTimestamp := bootOffsetToTimestamp bootOffset e.StartTime
     endTimestamp := bootOffsetToTimestamp bootOffset e.EndTime
     traceID := e.SpanContext.TraceID
     spanID := e.SpanContext.SpanID
     flags := 1
     parentSpanID :=
       if spanIDIsValid e.ParentSpanContext.SpanID then
         some e.ParentSpanContext.SpanID
       else
         none
     status := status
     attributes := attrs }]

/-! ## Concrete inputs used by the theorems -/

/-- A process whose module-version map binds the grpc package to the given
version. -/
def infoGrpc (v : Version) : ProcessInfo :=
  { Modules := [(pkg, v)] }

/-- An event carrying non-zero local address data, no status flag, a valid
span identifier and an all-zero parent span identifier. -/
def addrEvent : event :=
  { StartTime := 10
    EndTime := 20
    SpanContext := { TraceID := List.replicate 16 1, SpanID := List.replicate 8 1 }
    ParentSpanContext := { TraceID := List.replicate 16 0, SpanID := List.replicate 8 0 }
    Method := [70, 111, 111] ++ List.replicate 97 0
    StatusCode := 0
    LocalAddr := { IP := List.replicate 15 0 ++ [1], Port := 443 }
    HasStatus := 0 }

/-! ## Claims -/

/-- C1: the claim states that for a detected grpc version below 1.60.0 the
resolved feature flag is false and processFn omits the address and port
attributes regardless of any flag value left over from a previously resolved
target process.  The code violates this: the package-level serverAddr
variable is set to true once a target at or above 1.60.0 is resolved and is
never reset, so resolving a later 1.59.0 target from that state still
injects a true flag (second conjunct) and processFn run under the stale true
flag attaches both address attributes (fourth and fifth conjuncts).  Only a
resolution starting from the pristine false state yields false (third
conjunct). -/
theorem serverAddr_flag_carried_over :
    serverAddrConstInjectOption false (infoGrpc (semverNew 1 60 0)) =
      .ok (.keyValue "server_addr_supported" true, true) ∧
    serverAddrConstInjectOption true (infoGrpc (semverNew 1 59 0)) =
      .ok (.keyValue "server_addr_supported" true, true) ∧
    serverAddrConstInjectOption false (infoGrpc (semverNew 1 59 0)) =
      .ok (.keyValue "server_addr_supported" false, false) ∧
    Attr.mk "server.address" (.ipStr (List.replicate 15 0 ++ [1])) ∈
      (processFn 0 true addrEvent).headI.attributes ∧
    Attr.mk "server.port" (.int 443) ∈
      (processFn 0 true addrEvent).headI.attributes := by
  decide

/-- Lookup of the only binding of a singleton module map. -/
lemma lookupModule_single (k : String) (v : Version) :
    lookupModule [(k, v)] k = some v := by
  simp [lookupModule]

/-- Satisfaction of the pre-1.69.0 handleStream attachment point reduces to
its single less-than constraint. -/
lemma handleStream_sat (v : Version) :
    uprobeSatisfied handleStreamUprobe [(pkg, v)] =
      checkConstraint { op := .lt, ref := serverStreamVersion } v := by
  simp [uprobeSatisfied, handleStreamUprobe, lookupModule, checkConstraints]

/-- Satisfaction of the post-1.69.0 handleStream attachment point reduces to
its single greater-or-equal constraint. -/
lemma handleStream2_sat (v : Version) :
    uprobeSatisfied handleStream2Uprobe [(pkg, v)] =
      checkConstraint { op := .ge, ref := serverStreamVersion } v := by
  simp [uprobeSatisfied, handleStream2Uprobe, lookupModule, checkConstraints]

/-- A strict less-than constraint and a greater-or-equal constraint with the
same reference version are never satisfied together. -/
lemma lt_ge_constraint_disjoint (v w : Version) :
    ¬(checkConstraint { op := .lt, ref := w } v = true ∧
      checkConstraint { op := .ge, ref := w } v = true) := by
  rintro ⟨h1, h2⟩
  unfold checkConstraint at h1 h2
  by_cases hp : (v.pre != [] && w.pre == []) = true
  · rw [if_pos hp] at h1
    exact Bool.false_ne_true h1
  · rw [if_neg hp] at h1 h2
    cases hc : compareVersion v w <;> simp only [hc] at h1 h2 <;>
      revert h1 h2 <;> decide

/-- The two handleStream attachment points are never both satisfied for the
same detected grpc version. -/
lemma handleStream_not_both (v : Version) :
    ¬(uprobeSatisfied handleStreamUprobe [(pkg, v)] = true ∧
      uprobeSatisfied handleStream2Uprobe [(pkg, v)] = true) := by
  rw [handleStream_sat, handleStream2_sat]
  exact lt_ge_constraint_disjoint v serverStreamVersion

/-- C2: for every detected grpc version, among the attachment points of the
Uprobes list that share a symbol name at most one satisfies its version
constraints: any two satisfied points with the same symbol are the same
point. -/
theorem uprobe_symbol_constraints_partition (v : Version) (u1 u2 : Uprobe)
    (h1 : u1 ∈ Uprobes) (h2 : u2 ∈ Uprobes) (hsym : u1.sym = u2.sym)
    (hs1 : uprobeSatisfied u1 [(pkg, v)] = true)
    (hs2 : uprobeSatisfied u2 [(pkg, v)] = true) :
    u1 = u2 := by
  simp only [Uprobes, List.mem_cons, List.not_mem_nil, or_false] at h1 h2
  rcases h1 with rfl | rfl | rfl | rfl | rfl <;>
    rcases h2 with rfl | rfl | rfl | rfl | rfl <;>
    first
      | rfl
      | exact absurd hsym (by decide)
      | exact False.elim ((handleStream_not_both v) ⟨hs1, hs2⟩)
      | exact False.elim ((handleStream_not_both v) ⟨hs2, hs1⟩)

/-- Witness for C2 at the concrete version 1.65.0 with both points the
pre-1.69.0 handleStream attachment point. -/
theorem uprobe_symbol_constraints_partition_witness :
    handleStreamUprobe = handleStreamUprobe :=
  uprobe_symbol_constraints_partition (semverNew 1 65 0) handleStreamUprobe
    handleStreamUprobe (by decide) (by decide) rfl (by decide) (by decide)

/-- C3: at detected version 1.65.0 the resolver selects the handleStream
attachment point constrained below 1.69.0 and excludes the variant at or
above 1.69.0; at 1.70.0 the selection is reversed. -/
theorem handleStream_variant_selection :
    uprobeSatisfied handleStreamUprobe [(pkg, semverNew 1 65 0)] = true ∧
    uprobeSatisfied handleStream2Uprobe [(pkg, semverNew 1 65 0)] = false ∧
    uprobeSatisfied handleStreamUprobe [(pkg, semverNew 1 70 0)] = false ∧
    uprobeSatisfied handleStream2Uprobe [(pkg, semverNew 1 70 0)] = true := by
  decide

/-- C4: processFn sets the produced span status to error exactly when the
has-status flag is non-zero and the status code lies in the closed
error-class set Unknown, DeadlineExceeded, Unimplemented, Internal,
Unavailable, DataLoss; for every other code, or a zero flag, the status is
left unset. -/
theorem processFn_status_mapping (off : Nat) (sa : Bool) (e : event) :
    (processFn off sa e).map Span.status =
      [if e.HasStatus != 0 &&
          (e.StatusCode == codeUnknown || e.StatusCode == codeDeadlineExceeded ||
           e.StatusCode == codeUnimplemented || e.StatusCode == codeInternal ||
           e.StatusCode == codeUnavailable || e.StatusCode == codeDataLoss) then
         SpanStatusCode.error
       else SpanStatusCode.unset] := by
  cases hh : e.HasStatus != 0 <;>
    cases hc : (e.StatusCode == codeUnknown || e.StatusCode == codeDeadlineExceeded ||
      e.StatusCode == codeUnimplemented || e.StatusCode == codeInternal ||
      e.StatusCode == codeUnavailable || e.StatusCode == codeDataLoss) <;>
    simp [processFn, hh, hc]

/-- C5: when the module-version map has no entry for the grpc package, both
constant resolvers report an unknown-module error rather than producing a
value. -/
theorem missing_grpc_module_error (s : Bool) (info : ProcessInfo)
    (h : lookupModule info.Modules pkg = none) :
    framePosConstInjectOption info = .error ("unknown module version: " ++ pkg) ∧
    serverAddrConstInjectOption s info = .error ("unknown module version: " ++ pkg) := by
  constructor <;>
    simp [framePosConstInjectOption, serverAddrConstInjectOption, h]

/-- Witness for C5 on an empty module-version map. -/
theorem missing_grpc_module_error_witness :
    framePosConstInjectOption { Modules := [] } =
      .error ("unknown module version: " ++ pkg) ∧
    serverAddrConstInjectOption false { Modules := [] } =
      .error ("unknown module version: " ++ pkg) :=
  missing_grpc_module_error false { Modules := [] } rfl

/-- Resolution of serverAddrConst for a module map binding the grpc package,
expressed as one equation covering the injected value and the state
update. -/
lemma serverAddr_result (s : Bool) (ver : Version) (info : ProcessInfo)
    (hm : lookupModule info.Modules pkg = some ver) :
    serverAddrConstInjectOption s info =
      .ok (.keyValue "server_addr_supported"
            (if ver.greaterThanEqual serverAddrMinVersion then true else s),
           if ver.greaterThanEqual serverAddrMinVersion then true else s) := by
  unfold serverAddrConstInjectOption
  rw [hm]

/-- C6: resolving twice in sequence against the same module-version map
yields identical injected values: a second serverAddrConst resolution run
from the state left by the first returns exactly the first result, and
framePosConst is a pure function of the map. -/
theorem resolver_idempotent (s : Bool) (info : ProcessInfo)
    (opt : InjectOption) (s2 : Bool)
    (h : serverAddrConstInjectOption s info = .ok (opt, s2)) :
    serverAddrConstInjectOption s2 info = .ok (opt, s2) ∧
    framePosConstInjectOption info = framePosConstInjectOption info := by
  refine ⟨?_, rfl⟩
  cases hm : lookupModule info.Modules pkg with
  | none =>
    unfold serverAddrConstInjectOption at h
    rw [hm] at h
    exact Except.noConfusion h
  | some ver =>
    rw [serverAddr_result s ver info hm] at h
    rw [serverAddr_result s2 ver info hm]
    by_cases hg : ver.greaterThanEqual serverAddrMinVersion = true
    · simp only [if_pos hg] at h ⊢
      simp only [Except.ok.injEq, Prod.mk.injEq] at h
      obtain ⟨h1, h2⟩ := h
      subst h1
      subst h2
      rfl
    · simp only [if_neg hg] at h ⊢
      simp only [Except.ok.injEq, Prod.mk.injEq] at h
      obtain ⟨h1, h2⟩ := h
      subst h1
      subst h2
      rfl

/-- Witness for C6 at version 1.60.0 starting from the pristine false
state. -/
theorem resolver_idempotent_witness :
    serverAddrConstInjectOption true (infoGrpc (semverNew 1 60 0)) =
      .ok (.keyValue "server_addr_supported" true, true) ∧
    framePosConstInjectOption (infoGrpc (semverNew 1 60 0)) =
      framePosConstInjectOption (infoGrpc (semverNew 1 60 0)) :=
  resolver_idempotent false (infoGrpc (semverNew 1 60 0))
    (.keyValue "server_addr_supported" true) true (by decide)

/-- C7: the span name equals the Method buffer truncated at the first null
byte; a buffer holding Foo followed by nulls decodes to Foo, a 100-byte
buffer with no null decodes to all 100 bytes, and in general the decoded
name is an initial segment of the buffer, so no byte past the declared
capacity is read. -/
theorem processFn_method_name (off : Nat) (sa : Bool) (e : event) :
    (processFn off sa e).map Span.name = [byteSliceToString e.Method] ∧
    byteSliceToString ([70, 111, 111] ++ List.replicate 97 0) = [70, 111, 111] ∧
    byteSliceToString (List.replicate 100 1) = List.replicate 100 1 ∧
    ∀ bs : List Nat,
      byteSliceToString bs = bs.take (byteSliceToString bs).length ∧
      (byteSliceToString bs).length ≤ bs.length := by
  refine ⟨by simp [processFn], by decide, by decide, ?_⟩
  intro bs
  induction bs with
  | nil => exact ⟨rfl, Nat.le_refl 0⟩
  | cons a l ih =>
    obtain ⟨ih1, ih2⟩ := ih
    by_cases ha : (a != 0) = true
    · have hbs : byteSliceToString (a :: l) = a :: byteSliceToString l := by
        simp [byteSliceToString, List.takeWhile_cons, ha]
      rw [hbs]
      constructor
      · simpa [List.take_succ_cons] using ih1
      · simpa using Nat.succ_le_succ ih2
    · have hbs : byteSliceToString (a :: l) = [] := by
        simp [byteSliceToString, List.takeWhile_cons, ha]
      rw [hbs]
      exact ⟨rfl, Nat.zero_le _⟩

/-- C8: the produced span carries a parent span identifier exactly when the
parent span identifier of the event is valid, validity meaning different
from the all-zero identifier; an invalid parent leaves the span a trace
root. -/
theorem processFn_parent_span (off : Nat) (sa : Bool) (e : event) :
    (processFn off sa e).map Span.parentSpanID =
      [if spanIDIsValid e.ParentSpanContext.SpanID then
         some e.ParentSpanContext.SpanID
       else none] ∧
    (spanIDIsValid e.ParentSpanContext.SpanID = true ↔
      e.ParentSpanContext.SpanID ≠ List.replicate 8 0) := by
  constructor
  · simp [processFn]
  · simp [spanIDIsValid]

/-- C9: processFn returns exactly one span per event, and its attribute list
always contains the protocol identity attributes rpc.system grpc,
rpc.service with the decoded method name, and the raw numeric status
code. -/
theorem processFn_span_identity (off : Nat) (sa : Bool) (e : event) :
    (processFn off sa e).length = 1 ∧
    Attr.mk "rpc.system" (.str grpcName) ∈
      (processFn off sa e).headI.attributes ∧
    Attr.mk "rpc.service" (.str (byteSliceToString e.Method)) ∈
      (processFn off sa e).headI.attributes ∧
    Attr.mk "rpc.grpc.status_code" (.int e.StatusCode) ∈
      (processFn off sa e).headI.attributes := by
  refine ⟨by simp [processFn], ?_, ?_, ?_⟩ <;>
    · simp only [processFn, List.headI]
      split <;> split <;> simp

/-- C10: at detected version exactly 1.40.0, the declared minimum for status
parsing, neither WriteStatus attachment point satisfies its constraints: the
first requires strictly greater than 1.40.0 and the second requires at least
1.69.0, so no status-writing handler is attached at the minimum itself. -/
theorem writeStatus_none_at_minimum :
    uprobeSatisfied writeStatusUprobe [(pkg, writeStatusMinVersion)] = false ∧
    uprobeSatisfied writeStatus2Uprobe [(pkg, writeStatusMinVersion)] = false := by
  decide
